import Mathlib

/-!
Verification of the multi-round tool-calling orchestrator of this repository
(`backend/ai_generator.py`, class `AIGenerator`): a shallow embedding of
`generate_response`, `_make_api_call` and `_process_tool_round`, together
with proofs of the behavioral properties stated in the design document.

Modelling conventions:

* An LLM response is a `Response`: a `stop_reason` string plus a list of
  content blocks.  A content block is either a text block or a tool-use
  block (the anthropic SDK's `TextBlock` / `ToolUseBlock`); only a text
  block carries a `text` attribute.
* The anthropic client is modelled as an oracle `llm : Nat → Response`
  giving the response to the i-th `messages.create` call (0-based) of one
  `generate_response` execution.  Network failures of the client are out of
  scope here (they propagate, the orchestrator contains no handler for
  them).
* A tool manager is a function `ToolManager` returning
  `Except String String`; `Except.error e` models `execute_tool` raising a
  Python exception whose `str(...)` is `e`.
* The Python expression `response.content[0].text` raises `IndexError` on
  an empty content list and `AttributeError` when the first block is a
  tool-use block; these outcomes are `GenResult.raised`.  The literal
  string returned by the line after the round loop is represented by the
  distinguished outcome `GenResult.fallback`.
* `generate_response` returns, next to its result, the full trace of the
  execution (`GenState`): the keyword arguments of every `messages.create`
  call in order (`ApiParams`: presence of the `tools` / `tool_choice`
  parameters is an `Option`), and every tool dispatch in order.
* Python truthiness is translated explicitly: `if tools:` is true iff the
  optional list is present and nonempty (`tools_truthy`), and
  `if conversation_history:` is true iff the optional string is present
  and nonempty.
-/

namespace AIGen

/-- A `tool_use` content block of an LLM response: its correlation `id`,
the requested tool `name`, and the argument mapping `input`
(a Python dict, modelled as an association list). -/
structure ToolUseBlock where
  id : String
  name : String
  input : List (String × String)
deriving DecidableEq

/-- One content block of an LLM response: either a text block (which has a
`text` attribute) or a tool-use block (which has not). -/
inductive ContentBlock where
  | text (t : String)
  | tool_use (b : ToolUseBlock)
deriving DecidableEq

/-- An LLM response as consumed by `generate_response`: the `stop_reason`
and the list of content blocks. -/
structure Response where
  stop_reason : String
  content : List ContentBlock
deriving DecidableEq

/-- The `tool_result` dict built by `_process_tool_round`.  In the Python
code the `is_error` key is only present (and `True`) in the exception
branch; `result.get("is_error")` is falsy otherwise, so a `Bool` field that
is `false` in the success branch is a faithful translation. -/
structure ToolResult where
  tool_use_id : String
  content : String
  is_error : Bool
deriving DecidableEq

/-- The `content` entry of one conversation message: the plain query string
(initial user turn), the raw content blocks of an assistant turn, or the
batch of tool results of a tool-result user turn. -/
inductive MsgContent where
  | str (s : String)
  | blocks (bs : List ContentBlock)
  | results (rs : List ToolResult)
deriving DecidableEq

/-- One entry of the `messages` list: a role/content dict. -/
structure Message where
  role : String
  content : MsgContent
deriving DecidableEq

/-- A tool schema as attached to an API call (a dict the orchestrator never
inspects, modelled as an association list). -/
abbrev ToolSchema := List (String × String)

/-- The tool manager: `execute_tool(name, **input)` either returns a result
string or raises an exception with the given message. -/
abbrev ToolManager := String → List (String × String) → Except String String

/-- The keyword arguments of one `messages.create` call, as assembled by
`_make_api_call`: the constant base parameters (`model`, `temperature`,
`max_tokens`), the messages, the system string, and the optional `tools`
and `tool_choice` parameters (`none` when the keyword is absent). -/
structure ApiParams where
  model : String
  temperature : Nat
  max_tokens : Nat
  messages : List Message
  system : String
  tools : Option (List ToolSchema)
  tool_choice : Option String
deriving DecidableEq

/-- A Python exception that `generate_response` itself can raise while
reading `response.content[0].text`. -/
inductive PyError where
  | indexError
  | attributeError
deriving DecidableEq

/-- The outcome of `generate_response`: a returned string, a raised
`IndexError` / `AttributeError`, or the fallback return statement after
the round loop. -/
inductive GenResult where
  | ok (t : String)
  | raised (e : PyError)
  | fallback
deriving DecidableEq

/-- The observable trace of one `generate_response` execution: every
API call's parameters and every tool dispatch `(name, input)`, in order. -/
structure GenState where
  calls : List ApiParams
  dispatches : List (String × List (String × String))
deriving DecidableEq

/-- Python truthiness of the `tools` argument: `if tools:` is true iff the
optional list is present and nonempty. -/
def tools_truthy : Option (List ToolSchema) → Bool
  | none => false
  | some ts => !ts.isEmpty

/-- Embedding of `AIGenerator._make_api_call`: merges the base parameters
with messages and system, and attaches `tools` plus
`tool_choice={"type": "auto"}` only when `tools` is truthy. -/
def make_api_call (model : String) (messages : List Message)
    (tools : Option (List ToolSchema)) (system_content : String) : ApiParams :=
  if tools_truthy tools then
    ApiParams.mk model 0 800 messages system_content tools (some "auto")
  else
    ApiParams.mk model 0 800 messages system_content none none

/-- One tool dispatch of `_process_tool_round`: on success a plain
`tool_result`, on exception the error-flagged `tool_result` with content
`"Error executing tool: " ++ str(e)`. -/
def execute_block (tm : ToolManager) (b : ToolUseBlock) : ToolResult :=
  match tm b.name b.input with
  | Except.ok r => ToolResult.mk b.id r false
  | Except.error e => ToolResult.mk b.id ("Error executing tool: " ++ e) true

/-- The tool-use blocks of a content list, in order (the blocks the
`for block in response.content` loop dispatches). -/
def toolUses (bs : List ContentBlock) : List ToolUseBlock :=
  bs.filterMap fun b =>
    match b with
    | ContentBlock.text _ => none
    | ContentBlock.tool_use tu => some tu

/-- The `tool_results` list built by `_process_tool_round`: one result per
tool-use block of the content, in order. -/
def tool_results (tm : ToolManager) (bs : List ContentBlock) : List ToolResult :=
  bs.filterMap fun b =>
    match b with
    | ContentBlock.text _ => none
    | ContentBlock.tool_use tu => some (execute_block tm tu)

/-- The dispatches `(name, input)` performed while processing a content
list, in order. -/
def dispatches_of (bs : List ContentBlock) : List (String × List (String × String)) :=
  (toolUses bs).map fun tu => (tu.name, tu.input)

/-- Embedding of `AIGenerator._process_tool_round`: append the assistant
turn holding the raw response content, then — only when at least one tool
result was produced — append one user turn bundling all tool results. -/
def process_tool_round (tm : ToolManager) (response : Response)
    (messages : List Message) : List Message :=
  let ms := messages ++ [Message.mk "assistant" (MsgContent.blocks response.content)]
  let trs := tool_results tm response.content
  if trs.isEmpty then ms else ms ++ [Message.mk "user" (MsgContent.results trs)]

/-- Whether some result of a batch is error-flagged. -/
def hasErr (rs : List ToolResult) : Bool :=
  rs.any fun r => r.is_error

/-- Embedding of the error scan in `generate_response`: the last message
exists, its role is `"user"`, and some entry of its content list has a
truthy `is_error`. -/
def last_error (messages : List Message) : Bool :=
  match messages.getLast? with
  | none => false
  | some m =>
    m.role == "user" &&
      (match m.content with
       | MsgContent.results rs => hasErr rs
       | _ => false)

/-- Evaluation of `response.content[0].text`: the text of the first block,
`IndexError` on empty content, `AttributeError` when the first block is a
tool-use block. -/
def content_first_text (r : Response) : GenResult :=
  match r.content with
  | [] => GenResult.raised PyError.indexError
  | ContentBlock.text t :: _ => GenResult.ok t
  | ContentBlock.tool_use _ :: _ => GenResult.raised PyError.attributeError

/-- The static system prompt `AIGenerator.SYSTEM_PROMPT` (verbatim, with the
source file's own byte sequences). -/
def SYSTEM_PROMPT : String := " You are an AI assistant specialized in course materials and educational content with access to tools for course information.

Tool Usage:
- **search_course_content**: Use for questions about specific course content or detailed educational materials
- **get_course_outline**: Use for questions about course structure, lesson lists, or course outlines
- **Sequential tool calling**: You can make up to 2 sequential tool calls across separate rounds to gather information
  - First round: Initial search or data gathering based on the query
  - Second round (optional): Follow-up search based on first results, different filters, or additional context needed
  - Use sequential calls for comparisons, multi-part questions, or when information from different courses/lessons is needed
- **Strategic tool use**:
  - Use first call to get broad context or initial information
  - Use second call (if needed) to refine search, get specific details, or gather complementary information
  - Don\x27t repeat identical searches - each call should add value
- Synthesize tool results into accurate, fact-based responses
- If tool yields no results, state this clearly without offering alternatives

Outline Query Requirements:
When responding to outline-related queries, you MUST include:
- Course title
- Course link
- Complete list of lessons with their numbers and titles

Response Protocol:
- **General knowledge questions**: Answer using existing knowledge without using tools
- **Course content questions**: Use search_course_content tool first, then answer
- **Course outline questions**: Use get_course_outline tool first, then answer
- **No meta-commentary**:
 - Provide direct answers only â€” no reasoning process, tool explanations, or question-type analysis
 - Do not mention \"based on the search results\" or \"based on the outline\"


All responses must be:
1. **Brief, Concise and focused** - Get to the point quickly
2. **Educational** - Maintain instructional value
3. **Clear** - Use accessible language
4. **Example-supported** - Include relevant examples when they aid understanding
Provide only the direct answer to what was asked.
"

/-- The system string built at the top of `generate_response`: the static
prompt, followed by the history block when `conversation_history` is
truthy (present and nonempty). -/
def build_system_content (conversation_history : Option String) : String :=
  match conversation_history with
  | some h =>
    if h = "" then SYSTEM_PROMPT
    else SYSTEM_PROMPT ++ "\n\nPrevious conversation:\n" ++ h
  | none => SYSTEM_PROMPT

/-- The round bound of the sequential tool-calling loop. -/
def MAX_ROUNDS : Nat := 2

/-- The `for round_num in range(1, MAX_ROUNDS + 1)` loop of
`generate_response`, with `idx` the number of API calls already made and
the remaining iteration count as fuel (`round_num == MAX_ROUNDS` is
`fuel = 1`, i.e. the `k = 0` test below).  Exhausted fuel is the
`return "Error: Unexpected flow termination"` statement after the loop. -/
def gen_loop (model : String) (llm : Nat → Response) (system_content : String)
    (tools : Option (List ToolSchema)) (tool_manager : Option ToolManager) :
    Nat → Nat → List Message → GenResult × GenState
  | _, 0, _ => (GenResult.fallback, GenState.mk [] [])
  | idx, k+1, messages =>
    let params := make_api_call model messages tools system_content
    let response := llm idx
    if response.stop_reason ≠ "tool_use" then
      (content_first_text response, GenState.mk [params] [])
    else
      match tool_manager with
      | none => (content_first_text response, GenState.mk [params] [])
      | some tm =>
        let messages2 := process_tool_round tm response messages
        let ds := dispatches_of response.content
        if last_error messages2 then
          (content_first_text (llm (idx+1)),
            GenState.mk [params, make_api_call model messages2 none system_content] ds)
        else if k = 0 then
          (content_first_text (llm (idx+1)),
            GenState.mk [params, make_api_call model messages2 none system_content] ds)
        else
          let rest := gen_loop model llm system_content tools tool_manager (idx+1) k messages2
          (rest.1, GenState.mk (params :: rest.2.calls) (ds ++ rest.2.dispatches))

/-- Embedding of `AIGenerator.generate_response`: build the system string,
initialize the conversation as one user turn holding the query, and run the
bounded tool-calling loop. -/
def generate_response (model : String) (llm : Nat → Response) (query : String)
    (conversation_history : Option String) (tools : Option (List ToolSchema))
    (tool_manager : Option ToolManager) : GenResult × GenState :=
  gen_loop model llm (build_system_content conversation_history) tools tool_manager
    0 MAX_ROUNDS [Message.mk "user" (MsgContent.str query)]

/-- Number of tool-enabled calls in a trace (calls carrying a `tools`
parameter). -/
def tool_enabled_count (cs : List ApiParams) : Nat :=
  cs.countP fun c => c.tools.isSome

/-- The condition under which an execution of `generate_response` (with a
tool manager supplied) terminates through the tool-error branch of round
`r`: every preceding round was an error-free tool round, round `r`'s
response requests tool use, and round `r`'s batch of tool results contains
an error-flagged result. -/
def error_terminates_round (llm : Nat → Response) (tm : ToolManager) (r : Nat) : Bool :=
  if r = 1 then
    ((llm 0).stop_reason == "tool_use") && hasErr (tool_results tm (llm 0).content)
  else if r = 2 then
    ((llm 0).stop_reason == "tool_use") && (!hasErr (tool_results tm (llm 0).content)) &&
    ((llm 1).stop_reason == "tool_use") && hasErr (tool_results tm (llm 1).content)
  else false

/-- Concrete fixture: a tool-use block as the mocked LLM of the repository
test-suite produces it. -/
def tub : ToolUseBlock := ToolUseBlock.mk "t1" "search_course_content" [("query", "mcp")]

/-- Concrete fixture: a response requesting one tool use. -/
def respTool : Response := Response.mk "tool_use" [ContentBlock.tool_use tub]

/-- Concrete fixture: a natural-completion text response. -/
def respFinal : Response := Response.mk "end_turn" [ContentBlock.text "final answer"]

/-- Concrete fixture: an LLM oracle answering the first two calls with a
tool-use request and every further call with text. -/
def llmTwoTools : Nat → Response := fun n => if n < 2 then respTool else respFinal

/-- Concrete fixture: an LLM oracle answering the first call with a
tool-use request and every further call with text. -/
def llmToolThenEnd : Nat → Response := fun n => if n = 0 then respTool else respFinal

/-- Concrete fixture: an LLM oracle answering every call with text. -/
def llmEnd : Nat → Response := fun _ => respFinal

/-- Concrete fixture: an LLM oracle answering every call with a tool-use
request. -/
def llmToolOnly : Nat → Response := fun _ => respTool

/-- Concrete fixture: a tool manager whose dispatches all succeed. -/
def tmOk : ToolManager := fun _ _ => Except.ok "some result"

/-- Concrete fixture: a tool manager whose dispatches all raise an
exception with message "boom". -/
def tmBoom : ToolManager := fun _ _ => Except.error "boom"

/-- Concrete fixture: one tool schema. -/
def schemaSearch : ToolSchema := [("name", "search_course_content")]

/-- Concrete fixture: an initial conversation holding one user query. -/
def msgs0 : List Message := [Message.mk "user" (MsgContent.str "q")]

lemma tools_truthy_of_ne_nil (ts : List ToolSchema) (h : ts ≠ []) :
    tools_truthy (some ts) = true := by
  cases ts with
  | nil => exact absurd rfl h
  | cons a l => rfl

lemma make_api_call_none (model : String) (messages : List Message) (sys : String) :
    make_api_call model messages none sys =
      ApiParams.mk model 0 800 messages sys none none := rfl

lemma make_api_call_of_truthy (model : String) (messages : List Message)
    (ts : List ToolSchema) (sys : String) (h : tools_truthy (some ts) = true) :
    make_api_call model messages (some ts) sys =
      ApiParams.mk model 0 800 messages sys (some ts) (some "auto") := by
  simp [make_api_call, h]

lemma make_api_call_system (model : String) (messages : List Message)
    (tools : Option (List ToolSchema)) (sys : String) :
    (make_api_call model messages tools sys).system = sys := by
  unfold make_api_call
  split <;> rfl

lemma make_api_call_messages (model : String) (messages : List Message)
    (tools : Option (List ToolSchema)) (sys : String) :
    (make_api_call model messages tools sys).messages = messages := by
  unfold make_api_call
  split <;> rfl

lemma execute_block_id (tm : ToolManager) (b : ToolUseBlock) :
    (execute_block tm b).tool_use_id = b.id := by
  unfold execute_block
  cases tm b.name b.input <;> rfl

lemma tool_results_eq_map (tm : ToolManager) (bs : List ContentBlock) :
    tool_results tm bs = (toolUses bs).map (execute_block tm) := by
  induction bs with
  | nil => rfl
  | cons b bs ih =>
    cases b with
    | text t => simpa [tool_results, toolUses, List.filterMap_cons] using ih
    | tool_use tu => simpa [tool_results, toolUses, List.filterMap_cons] using ih

lemma dispatches_of_length (bs : List ContentBlock) :
    (dispatches_of bs).length = (toolUses bs).length := by
  simp [dispatches_of]

lemma last_error_process (tm : ToolManager) (resp : Response) (msgs : List Message) :
    last_error (process_tool_round tm resp msgs) = hasErr (tool_results tm resp.content) := by
  unfold process_tool_round
  cases h : (tool_results tm resp.content).isEmpty with
  | true =>
    have hnil : tool_results tm resp.content = [] := by
      simpa [List.isEmpty_iff] using h
    simp only [h, if_true, hnil, hasErr, List.any_nil]
    simp [last_error, List.getLast?_concat]
  | false =>
    simp only [h, if_false]
    rw [List.append_assoc]
    simp [last_error, List.getLast?_concat, hasErr]

lemma content_first_text_ne_fallback (r : Response) :
    content_first_text r ≠ GenResult.fallback := by
  unfold content_first_text
  cases hc : r.content with
  | nil => simp
  | cons b bs => cases b <;> simp

lemma tool_enabled_count_single (p : ApiParams) :
    tool_enabled_count [p] ≤ 1 := by
  simp only [tool_enabled_count, List.countP_cons, List.countP_nil]
  split <;> omega

lemma tool_enabled_count_pair_final (p : ApiParams) (model : String)
    (messages : List Message) (sys : String) :
    tool_enabled_count [p, make_api_call model messages none sys] ≤ 1 := by
  simp only [tool_enabled_count, List.countP_cons, List.countP_nil, make_api_call_none]
  norm_num
  split <;> omega

lemma tool_enabled_count_cons (p : ApiParams) (l : List ApiParams) :
    tool_enabled_count (p :: l) ≤ tool_enabled_count l + 1 := by
  simp only [tool_enabled_count, List.countP_cons]
  split <;> omega

lemma gen_loop_tool_enabled_le (model : String) (llm : Nat → Response) (sys : String)
    (tools : Option (List ToolSchema)) (tmo : Option ToolManager) :
    ∀ (k idx : Nat) (msgs : List Message),
      tool_enabled_count (gen_loop model llm sys tools tmo idx k msgs).2.calls ≤ k := by
  intro k
  induction k with
  | zero =>
    intro idx msgs
    simp [gen_loop, tool_enabled_count]
  | succ k ih =>
    intro idx msgs
    simp only [gen_loop]
    split
    · exact le_trans (tool_enabled_count_single _) (by omega)
    · split
      · exact le_trans (tool_enabled_count_single _) (by omega)
      · split
        · exact le_trans (tool_enabled_count_pair_final _ _ _ _) (by omega)
        · split
          · exact le_trans (tool_enabled_count_pair_final _ _ _ _) (by omega)
          · rename_i tm hlast hk
            exact le_trans (tool_enabled_count_cons _ _)
              (by have := ih (idx + 1) (process_tool_round tm (llm idx) msgs); omega)

lemma gen_loop_system_mem (model : String) (llm : Nat → Response) (sys : String)
    (tools : Option (List ToolSchema)) (tmo : Option ToolManager) :
    ∀ (k idx : Nat) (msgs : List Message) (c : ApiParams),
      c ∈ (gen_loop model llm sys tools tmo idx k msgs).2.calls → c.system = sys := by
  intro k
  induction k with
  | zero =>
    intro idx msgs c hc
    simp [gen_loop] at hc
  | succ k ih =>
    intro idx msgs c hc
    simp only [gen_loop] at hc
    split at hc
    · simp at hc
      subst hc
      exact make_api_call_system _ _ _ _
    · split at hc
      · simp at hc
        subst hc
        exact make_api_call_system _ _ _ _
      · split at hc
        · simp at hc
          rcases hc with hc | hc <;> subst hc <;> exact make_api_call_system _ _ _ _
        · split at hc
          · simp at hc
            rcases hc with hc | hc <;> subst hc <;> exact make_api_call_system _ _ _ _
          · simp at hc
            rcases hc with hc | hc
            · subst hc
              exact make_api_call_system _ _ _ _
            · exact ih _ _ c hc

lemma gen_loop_head_call (model : String) (llm : Nat → Response) (sys : String)
    (tools : Option (List ToolSchema)) (tmo : Option ToolManager)
    (k idx : Nat) (msgs : List Message) :
    (gen_loop model llm sys tools tmo idx (k+1) msgs).2.calls.head? =
      some (make_api_call model msgs tools sys) := by
  simp only [gen_loop]
  split
  · rfl
  · split
    · rfl
    · split
      · rfl
      · split
        · rfl
        · rfl

lemma gen_loop_ne_fallback (model : String) (llm : Nat → Response) (sys : String)
    (tools : Option (List ToolSchema)) (tmo : Option ToolManager) :
    ∀ (k idx : Nat) (msgs : List Message), 0 < k →
      (gen_loop model llm sys tools tmo idx k msgs).1 ≠ GenResult.fallback := by
  intro k
  induction k with
  | zero => intro idx msgs h; omega
  | succ k ih =>
    intro idx msgs _
    simp only [gen_loop]
    split
    · exact content_first_text_ne_fallback _
    · split
      · exact content_first_text_ne_fallback _
      · split
        · exact content_first_text_ne_fallback _
        · split
          · exact content_first_text_ne_fallback _
          · rename_i tm hlast hk
            exact ih (idx + 1) (process_tool_round tm (llm idx) msgs) (by omega)

lemma mem_toolUses_of_mem (b : ToolUseBlock) (bs : List ContentBlock)
    (hb : ContentBlock.tool_use b ∈ bs) : b ∈ toolUses bs := by
  unfold toolUses
  rw [List.mem_filterMap]
  exact ⟨ContentBlock.tool_use b, hb, rfl⟩

lemma string_ne_append_right (s t : String) (ht : t.length ≠ 0) : s ≠ s ++ t := by
  intro hEq
  have hlen := congrArg String.length hEq
  rw [String.length_append] at hlen
  omega

lemma string_ne_of_head (a b : String) (hab : a.data.head? ≠ b.data.head?) : a ≠ b :=
  fun e => hab (congrArg (fun s => s.data.head?) e)

/-- C1 counterexample: the claim fails as stated.  With tools and a tool
manager supplied and an LLM oracle requesting tool use on both the first
and the second call, a tool manager whose round-1 dispatch raises makes
the execution terminate through the error branch: only two LLM calls are
made and the second carries no tool schemas, contradicting the claimed
three calls with schemas on the first two.  In addition, supplying the
empty tool list attaches no schema on any call. -/
theorem claim_C1_counterexample :
    (llmTwoTools 0).stop_reason = "tool_use" ∧
    (llmTwoTools 1).stop_reason = "tool_use" ∧
    (generate_response "m" llmTwoTools "q" none (some [schemaSearch]) (some tmBoom)).2.calls.length = 2 ∧
    ((generate_response "m" llmTwoTools "q" none (some [schemaSearch]) (some tmBoom)).2.calls.map
        (fun c => c.tools)) = [some [schemaSearch], none] ∧
    ((generate_response "m" llmTwoTools "q" none (some []) (some tmOk)).2.calls.map
        (fun c => c.tools)) = [none, none, none] := by
  decide

/-- C1 (amended): for every call to `generate_response` with a nonempty
tool list and a tool manager supplied, where the LLM requests tool use on
both the first and the second call and no tool result of the first round is
error-flagged, exactly three LLM API calls are made: the first two with the
tool schemas attached, the third with no tools and no tool_choice
parameter, and the text of the third response's first content block is
returned; moreover no execution whatsoever makes more than two
tool-enabled LLM calls. -/
theorem claim_C1_amended (model : String) (llm : Nat → Response) (q : String)
    (h : Option String) (ts : List ToolSchema) (tm : ToolManager)
    (hts : ts ≠ [])
    (h0 : (llm 0).stop_reason = "tool_use")
    (h1 : (llm 1).stop_reason = "tool_use")
    (herr : hasErr (tool_results tm (llm 0).content) = false) :
    (generate_response model llm q h (some ts) (some tm)).2.calls.length = 3 ∧
    ((generate_response model llm q h (some ts) (some tm)).2.calls.map
        (fun c => (c.tools, c.tool_choice))) =
      [(some ts, some "auto"), (some ts, some "auto"), (none, none)] ∧
    (generate_response model llm q h (some ts) (some tm)).1 = content_first_text (llm 2) ∧
    (∀ (model2 : String) (llm2 : Nat → Response) (q2 : String) (h2 : Option String)
        (ts2 : Option (List ToolSchema)) (tmo2 : Option ToolManager),
      tool_enabled_count (generate_response model2 llm2 q2 h2 ts2 tmo2).2.calls ≤ 2) := by
  have hT := tools_truthy_of_ne_nil ts hts
  refine ⟨?_, ?_, ?_, ?_⟩
  · unfold generate_response MAX_ROUNDS
    simp [gen_loop, h0, h1, last_error_process, herr, make_api_call, hT, tools_truthy, hts]
  · unfold generate_response MAX_ROUNDS
    simp [gen_loop, h0, h1, last_error_process, herr, make_api_call, hT, tools_truthy, hts]
  · unfold generate_response MAX_ROUNDS
    simp [gen_loop, h0, h1, last_error_process, herr, make_api_call, hT, tools_truthy, hts]
  · intro model2 llm2 q2 h2 ts2 tmo2
    unfold generate_response
    simpa [MAX_ROUNDS] using
      gen_loop_tool_enabled_le model2 llm2 (build_system_content h2) ts2 tmo2 MAX_ROUNDS 0
        [Message.mk "user" (MsgContent.str q2)]

/-- C1 witness: the amended claim at a concrete two-tool-round execution. -/
theorem claim_C1_witness :
    (generate_response "m" llmTwoTools "q" none (some [schemaSearch]) (some tmOk)).2.calls.length = 3 ∧
    ((generate_response "m" llmTwoTools "q" none (some [schemaSearch]) (some tmOk)).2.calls.map
        (fun c => (c.tools, c.tool_choice))) =
      [(some [schemaSearch], some "auto"), (some [schemaSearch], some "auto"), (none, none)] ∧
    (generate_response "m" llmTwoTools "q" none (some [schemaSearch]) (some tmOk)).1 =
      content_first_text (llmTwoTools 2) ∧
    tool_enabled_count
      (generate_response "m" llmTwoTools "q" none (some [schemaSearch]) (some tmOk)).2.calls ≤ 2 := by
  obtain ⟨a, b, c, d⟩ := claim_C1_amended "m" llmTwoTools "q" none [schemaSearch] tmOk
    (by decide) (by decide) (by decide) (by decide)
  exact ⟨a, b, c, d "m" llmTwoTools "q" none (some [schemaSearch]) (some tmOk)⟩

/-- C2: when the first LLM response's stop_reason is not "tool_use",
exactly one LLM API call is made, the text of that response's first
content block is returned unchanged, and no tool is dispatched. -/
theorem claim_C2 (model : String) (llm : Nat → Response) (q : String)
    (h : Option String) (ts : Option (List ToolSchema)) (tmo : Option ToolManager)
    (h0 : (llm 0).stop_reason ≠ "tool_use") :
    (generate_response model llm q h ts tmo).1 = content_first_text (llm 0) ∧
    (generate_response model llm q h ts tmo).2.calls.length = 1 ∧
    (generate_response model llm q h ts tmo).2.dispatches = [] := by
  unfold generate_response MAX_ROUNDS
  simp [gen_loop, h0]

/-- C2 witness: a concrete direct-answer execution. -/
theorem claim_C2_witness :
    (generate_response "m" llmEnd "q" none none none).1 = content_first_text (llmEnd 0) ∧
    (generate_response "m" llmEnd "q" none none none).2.calls.length = 1 ∧
    (generate_response "m" llmEnd "q" none none none).2.dispatches = [] :=
  claim_C2 "m" llmEnd "q" none none none (by decide)

/-- C3: when the batch of tool results of round r (r = 1 or r = 2, with
every earlier round an error-free tool round) contains an error-flagged
result, exactly one more LLM call is made — carrying neither a tools nor a
tool_choice parameter — its response's text is returned, and no further
round of any kind happens (the trace has exactly r + 1 calls); this holds
in particular when the error occurs in the first round. -/
theorem claim_C3 (model : String) (llm : Nat → Response) (q : String)
    (h : Option String) (ts : Option (List ToolSchema)) (tm : ToolManager) (r : Nat)
    (hr : error_terminates_round llm tm r = true) :
    (generate_response model llm q h ts (some tm)).2.calls.length = r + 1 ∧
    ((generate_response model llm q h ts (some tm)).2.calls.get? r).map
        (fun c => (c.tools, c.tool_choice)) = some (none, none) ∧
    (generate_response model llm q h ts (some tm)).1 = content_first_text (llm r) := by
  by_cases hr1 : r = 1
  · subst hr1
    simp [error_terminates_round] at hr
    obtain ⟨h0, he⟩ := hr
    unfold generate_response MAX_ROUNDS
    simp [gen_loop, h0, he, last_error_process, make_api_call, tools_truthy]
  by_cases hr2 : r = 2
  · subst hr2
    simp [error_terminates_round] at hr
    obtain ⟨⟨⟨h0, hne⟩, h1⟩, he⟩ := hr
    unfold generate_response MAX_ROUNDS
    simp [gen_loop, h0, h1, hne, he, last_error_process, make_api_call, tools_truthy]
  · exfalso
    simp [error_terminates_round, hr1, hr2] at hr

/-- C3 witness: a concrete execution whose first tool round raises. -/
theorem claim_C3_witness :
    (generate_response "m" llmToolThenEnd "q" none (some [schemaSearch]) (some tmBoom)).2.calls.length = 1 + 1 ∧
    ((generate_response "m" llmToolThenEnd "q" none (some [schemaSearch]) (some tmBoom)).2.calls.get? 1).map
        (fun c => (c.tools, c.tool_choice)) = some (none, none) ∧
    (generate_response "m" llmToolThenEnd "q" none (some [schemaSearch]) (some tmBoom)).1 =
      content_first_text (llmToolThenEnd 1) :=
  claim_C3 "m" llmToolThenEnd "q" none (some [schemaSearch]) tmBoom 1 (by decide)

/-- C4: a tool dispatch that raises is caught and converted into a
tool_result with is_error true and content "Error executing tool: "
followed by the exception message; every tool-use block of a turn yields
exactly one result (nothing is dropped or propagated), and the converted
error result is delivered in the batch. -/
theorem claim_C4 (tm : ToolManager) (b : ToolUseBlock) (e : String)
    (hb : tm b.name b.input = Except.error e) :
    execute_block tm b = ToolResult.mk b.id ("Error executing tool: " ++ e) true ∧
    (∀ bs : List ContentBlock, (tool_results tm bs).length = (toolUses bs).length) ∧
    (∀ bs : List ContentBlock, ContentBlock.tool_use b ∈ bs →
      ToolResult.mk b.id ("Error executing tool: " ++ e) true ∈ tool_results tm bs) := by
  have hexec : execute_block tm b = ToolResult.mk b.id ("Error executing tool: " ++ e) true := by
    unfold execute_block
    rw [hb]
  refine ⟨hexec, ?_, ?_⟩
  · intro bs
    rw [tool_results_eq_map, List.length_map]
  · intro bs hmem
    rw [tool_results_eq_map, ← hexec]
    exact List.mem_map_of_mem _ (mem_toolUses_of_mem b bs hmem)

/-- C4 witness: the raising tool manager at a concrete block. -/
theorem claim_C4_witness :
    execute_block tmBoom tub = ToolResult.mk "t1" ("Error executing tool: " ++ "boom") true ∧
    (tool_results tmBoom [ContentBlock.tool_use tub]).length =
      (toolUses [ContentBlock.tool_use tub]).length ∧
    ToolResult.mk "t1" ("Error executing tool: " ++ "boom") true ∈
      tool_results tmBoom [ContentBlock.tool_use tub] := by
  obtain ⟨a, b, c⟩ := claim_C4 tmBoom tub "boom" rfl
  exact ⟨a, b _, c _ (by decide)⟩

/-- C5 counterexample: the claim fails as stated.  A processed tool round
whose response content holds no tool-use block (possible, since
`_process_tool_round` runs whenever stop_reason is "tool_use" and filters
blocks by type) grows the conversation by exactly one turn — only the
assistant turn is appended, no tool-result user turn. -/
theorem claim_C5_counterexample :
    (process_tool_round tmOk (Response.mk "tool_use" [ContentBlock.text "thinking"]) msgs0).length =
      msgs0.length + 1 ∧
    process_tool_round tmOk (Response.mk "tool_use" [ContentBlock.text "thinking"]) msgs0 =
      msgs0 ++ [Message.mk "assistant" (MsgContent.blocks [ContentBlock.text "thinking"])] := by
  decide

/-- C5 (amended): for every processed tool round whose turn contains at
least one tool-use block, the conversation grows by exactly two turns —
the assistant turn holding the model's raw content, then one user turn
bundling one tool_result per tool-use block of that turn, in request
order, each tool_result's tool_use_id equal to the id of its block — and
all earlier turns are unchanged; a round with no tool-use block appends
only the assistant turn. -/
theorem claim_C5_amended (tm : ToolManager) (resp : Response) (msgs : List Message)
    (hne : toolUses resp.content ≠ []) :
    process_tool_round tm resp msgs =
      msgs ++ [Message.mk "assistant" (MsgContent.blocks resp.content),
               Message.mk "user" (MsgContent.results (tool_results tm resp.content))] ∧
    tool_results tm resp.content = (toolUses resp.content).map (execute_block tm) ∧
    (tool_results tm resp.content).map (fun r => r.tool_use_id) =
      (toolUses resp.content).map (fun tu => tu.id) := by
  have hmap := tool_results_eq_map tm resp.content
  have hnil : tool_results tm resp.content ≠ [] := by
    rw [hmap]
    simpa using hne
  have hE : (tool_results tm resp.content).isEmpty = false := by
    cases hE : (tool_results tm resp.content).isEmpty with
    | true => exact absurd (List.isEmpty_iff.mp hE) hnil
    | false => rfl
  refine ⟨?_, hmap, ?_⟩
  · unfold process_tool_round
    simp [hE, List.append_assoc]
  · rw [hmap, List.map_map]
    have hcomp : (fun r : ToolResult => r.tool_use_id) ∘ execute_block tm =
        fun tu : ToolUseBlock => tu.id := funext fun tu => execute_block_id tm tu
    rw [hcomp]

/-- C5 witness: the amended claim at a concrete one-block round. -/
theorem claim_C5_witness :
    process_tool_round tmOk respTool msgs0 =
      msgs0 ++ [Message.mk "assistant" (MsgContent.blocks respTool.content),
                Message.mk "user" (MsgContent.results (tool_results tmOk respTool.content))] ∧
    tool_results tmOk respTool.content = (toolUses respTool.content).map (execute_block tmOk) ∧
    (tool_results tmOk respTool.content).map (fun r => r.tool_use_id) =
      (toolUses respTool.content).map (fun tu => tu.id) :=
  claim_C5_amended tmOk respTool msgs0 (by decide)

/-- C6 counterexample: the claim fails as stated.  Supplying the empty
string as conversation_history (a supplied history string) yields the bare
instruction preamble — no history block is added, because Python
truthiness treats "" as absent; and for a nonempty history the system
string is the preamble FOLLOWED by the history block, not the preamble
prefixed with it (the two concatenation orders give different strings). -/
theorem claim_C6_counterexample :
    ((generate_response "m" llmEnd "q" (some "") none none).2.calls.map (fun c => c.system)) =
      [SYSTEM_PROMPT] ∧
    SYSTEM_PROMPT ≠ SYSTEM_PROMPT ++ "\n\nPrevious conversation:\n" ∧
    ((generate_response "m" llmEnd "q" (some "H") none none).2.calls.map (fun c => c.system)) =
      [SYSTEM_PROMPT ++ "\n\nPrevious conversation:\n" ++ "H"] ∧
    "\n\nPrevious conversation:\n" ++ "H" ++ SYSTEM_PROMPT ≠
      SYSTEM_PROMPT ++ "\n\nPrevious conversation:\n" ++ "H" := by
  refine ⟨rfl, ?_, rfl, ?_⟩
  · exact string_ne_append_right _ _ (by decide)
  · refine string_ne_of_head _ _ ?_
    have h1 : ("\n\nPrevious conversation:\n" ++ "H" ++ SYSTEM_PROMPT).data.head? =
        some (Char.ofNat 10) := rfl
    have h2 : (SYSTEM_PROMPT ++ "\n\nPrevious conversation:\n" ++ "H").data.head? =
        some (Char.ofNat 32) := rfl
    rw [h1, h2]
    decide

/-- C6 (amended): the conversation is rebuilt from scratch as exactly one
user turn containing the query, and when a NONEMPTY conversation_history
string is supplied the system instructions sent on every LLM call of that
query consist of the fixed instruction preamble FOLLOWED by the history
block; history is injected as a pre-formatted text block in the system
instructions, never as conversation turns. -/
theorem claim_C6_amended (model : String) (llm : Nat → Response) (q : String) (h : String)
    (ts : Option (List ToolSchema)) (tmo : Option ToolManager) (hh : h ≠ "") :
    ((generate_response model llm q (some h) ts tmo).2.calls.head?).map (fun c => c.messages) =
      some [Message.mk "user" (MsgContent.str q)] ∧
    ((generate_response model llm q (some h) ts tmo).2.calls.map (fun c => c.system)) =
      List.replicate (generate_response model llm q (some h) ts tmo).2.calls.length
        (SYSTEM_PROMPT ++ "\n\nPrevious conversation:\n" ++ h) := by
  have hsys : build_system_content (some h) =
      SYSTEM_PROMPT ++ "\n\nPrevious conversation:\n" ++ h := by
    simp [build_system_content, hh]
  constructor
  · unfold generate_response
    rw [show MAX_ROUNDS = 1 + 1 from rfl]
    rw [gen_loop_head_call]
    simp [make_api_call_messages]
  · apply List.map_eq_replicate_iff.mpr
    intro c hc
    unfold generate_response at hc
    have hs := gen_loop_system_mem model llm (build_system_content (some h)) ts tmo
      MAX_ROUNDS 0 _ c hc
    rw [hsys] at hs
    exact hs

/-- C6 witness: the amended claim at a concrete nonempty history. -/
theorem claim_C6_witness :
    ((generate_response "m" llmEnd "q" (some "hello") none none).2.calls.head?).map
        (fun c => c.messages) = some [Message.mk "user" (MsgContent.str "q")] ∧
    ((generate_response "m" llmEnd "q" (some "hello") none none).2.calls.map (fun c => c.system)) =
      List.replicate (generate_response "m" llmEnd "q" (some "hello") none none).2.calls.length
        (SYSTEM_PROMPT ++ "\n\nPrevious conversation:\n" ++ "hello") :=
  claim_C6_amended "m" llmEnd "q" "hello" none none (by decide)

/-- C7: with no tool manager supplied, an LLM response whose stop_reason
is "tool_use" is treated as already-final: the evaluation of its first
content block's text attribute is returned (an AttributeError when the
first block is a tool-use block, i.e. the code presupposes a text field),
exactly one LLM call is made and no tool is dispatched. -/
theorem claim_C7 (model : String) (llm : Nat → Response) (q : String)
    (h : Option String) (ts : Option (List ToolSchema))
    (h0 : (llm 0).stop_reason = "tool_use") :
    (generate_response model llm q h ts none).1 = content_first_text (llm 0) ∧
    (generate_response model llm q h ts none).2.calls.length = 1 ∧
    (generate_response model llm q h ts none).2.dispatches = [] := by
  unfold generate_response MAX_ROUNDS
  simp [gen_loop, h0]

/-- C7 witness: a concrete tool-requesting response with no manager. -/
theorem claim_C7_witness :
    (generate_response "m" llmToolOnly "q" none (some [schemaSearch]) none).1 =
      content_first_text (llmToolOnly 0) ∧
    (generate_response "m" llmToolOnly "q" none (some [schemaSearch]) none).2.calls.length = 1 ∧
    (generate_response "m" llmToolOnly "q" none (some [schemaSearch]) none).2.dispatches = [] :=
  claim_C7 "m" llmToolOnly "q" none (some [schemaSearch]) (by decide)

/-- C8: when the first LLM response requests exactly one tool use and the
second LLM response is a natural completion, exactly two LLM API calls and
exactly one tool dispatch occur, and the second response's text is
returned. -/
theorem claim_C8 (model : String) (llm : Nat → Response) (q : String)
    (h : Option String) (ts : Option (List ToolSchema)) (tm : ToolManager)
    (h0 : (llm 0).stop_reason = "tool_use")
    (hone : (toolUses (llm 0).content).length = 1)
    (h1 : (llm 1).stop_reason ≠ "tool_use") :
    (generate_response model llm q h ts (some tm)).2.calls.length = 2 ∧
    (generate_response model llm q h ts (some tm)).2.dispatches.length = 1 ∧
    (generate_response model llm q h ts (some tm)).1 = content_first_text (llm 1) := by
  unfold generate_response MAX_ROUNDS
  cases hE : hasErr (tool_results tm (llm 0).content) with
  | true => simp [gen_loop, h0, h1, last_error_process, hE, dispatches_of_length, hone]
  | false => simp [gen_loop, h0, h1, last_error_process, hE, dispatches_of_length, hone]

/-- C8 witness: a concrete one-tool-round execution. -/
theorem claim_C8_witness :
    (generate_response "m" llmToolThenEnd "q" none (some [schemaSearch]) (some tmOk)).2.calls.length = 2 ∧
    (generate_response "m" llmToolThenEnd "q" none (some [schemaSearch]) (some tmOk)).2.dispatches.length = 1 ∧
    (generate_response "m" llmToolThenEnd "q" none (some [schemaSearch]) (some tmOk)).1 =
      content_first_text (llmToolThenEnd 1) :=
  claim_C8 "m" llmToolThenEnd "q" none (some [schemaSearch]) tmOk (by decide) (by decide) (by decide)

/-- C9: `generate_response` never reaches the fallback return statement
after the round loop ("Error: Unexpected flow termination"): on the last
permitted round every branch returns from inside the loop. -/
theorem claim_C9 (model : String) (llm : Nat → Response) (q : String)
    (h : Option String) (ts : Option (List ToolSchema)) (tmo : Option ToolManager) :
    (generate_response model llm q h ts tmo).1 ≠ GenResult.fallback := by
  unfold generate_response
  exact gen_loop_ne_fallback model llm _ ts tmo MAX_ROUNDS 0 _ (by decide)

/-- C10: `_make_api_call` with an empty tools list attaches neither a
tools parameter nor a tool_choice parameter — indistinguishable from the
tools argument being absent. -/
theorem claim_C10 (model : String) (messages : List Message) (sys : String) :
    make_api_call model messages (some []) sys = make_api_call model messages none sys ∧
    (make_api_call model messages (some []) sys).tools = none ∧
    (make_api_call model messages (some []) sys).tool_choice = none :=
  ⟨rfl, rfl, rfl⟩

end AIGen
